import Mathlib

/-!
Shallow embedding of `src/web/src/components/player/HlsVideoPlayer.tsx`.

The widget is a React component; its state lives in `useState` / `useRef`
cells and is mutated by event handlers (media events, pointer events, user
commands) and by two `useEffect` blocks (initial capability detection and
source loading).  We embed the component as a state machine: `PlayerState`
collects the state cells together with the observable state of the media
sink, `Event` enumerates the external notifications, and `step` runs the
corresponding handler followed by any effect whose dependency array changed
(React re-runs an effect exactly when a dependency changed; `videoRef` and
`hlsRef` are stable ref objects, so the source-loading effect re-runs iff
`useHlsCompat` or `currentSource` changed).

The media sink (an HTMLVideoElement) and the hls.js engine are external
collaborators; we model only the capabilities the component consumes, per
the HTML media specification (`load` resets `playbackRate` to
`defaultPlaybackRate`, which is why the spec calls out rate restoration).
Numbers coming from the DOM (times, rates, coordinates) are modelled as
integers; every value appearing in the claims is an exact integer and the
operations involved (addition, comparison, Math.max) are exact, so no
floating-point behavior is involved.
-/

/-- Static device classification from `react-device-detect`, plus the static
answer of `Hls.isSupported()` for this environment. -/
structure DeviceInfo where
  isAndroid : Bool
  isMobile : Bool
  isDesktop : Bool
  hlsSupported : Bool
deriving DecidableEq

/-- Line 19-20: `const USE_NATIVE_HLS = !isAndroid;` -/
def USE_NATIVE_HLS (p : DeviceInfo) : Bool := !p.isAndroid

/-- Lines 22-25: `unsupportedErrorCodes = [MediaError.MEDIA_ERR_SRC_NOT_SUPPORTED,
MediaError.MEDIA_ERR_DECODE]`.  The DOM constants are 4 and 3 respectively. -/
def unsupportedErrorCodes : List Nat := [4, 3]

/-- The media sink (HTMLVideoElement) as consumed by the component:
`attached` is whether `videoRef.current` is non-null, `canPlayHls` the
result of `canPlayType("application/vnd.apple.mpegurl")`, `loadCount`
counts `load()` calls so reloads are observable, and the `rect*` fields are
the bounding client rect used by the pointer test. -/
structure Sink where
  attached : Bool
  src : String
  currentTime : Int
  playbackRate : Int
  defaultPlaybackRate : Int
  paused : Bool
  canPlayHls : Bool
  loadCount : Nat
  rectLeft : Int
  rectTop : Int
  rectRight : Int
  rectBottom : Int
deriving DecidableEq

/-- `video.load()`.  Per the HTML media element load algorithm (and the
spec: "a plain reload resets it"), loading resets the playback rate to the
default playback rate. -/
def Sink.load (v : Sink) : Sink :=
  { v with loadCount := v.loadCount + 1, playbackRate := v.defaultPlaybackRate }

/-- The hls.js engine handle stored in `hlsRef.current`: whether
`attachMedia` was called and the last `loadSource` argument. -/
structure EngineHandle where
  attachedToSink : Bool
  lastLoaded : Option String
deriving DecidableEq

/-- A toast emitted via `sonner`: the constructor records which toast
function was called (`toast.success` vs `toast.error`), the payload the
message text. -/
inductive Notif
  | success (msg : String)
  | failure (msg : String)
deriving DecidableEq

/-- Outcome of awaiting `onUploadFrame(...)`: the promise resolved with a
response (`none` models the `undefined` return allowed by the prop type,
`some st` an AxiosResponse with status `st`), or it rejected (a thrown
transport failure). -/
inductive UploadOutcome
  | completed (status : Option Nat)
  | thrown
deriving DecidableEq

/-- The component state: `useState`/`useRef` cells of the widget, the sink,
and bookkeeping that makes side effects observable (`engineConstructions`
counts `new Hls()` calls, `activeTimers` the armed-and-not-yet-fired
timeouts as (id, delay-ms) pairs, `nextTimerId` a fresh-id counter,
`lastMouse` the pointer position delivered by the most recent mousemove,
`toasts` the emitted notifications). -/
structure PlayerState where
  sink : Sink
  currentSource : String
  useHlsCompat : Bool
  hlsRef : Option EngineHandle
  engineConstructions : Nat
  loadedMetadata : Bool
  visible : Bool
  isPlaying : Bool
  controls : Bool
  controlsOpen : Bool
  mobileCtrlTimeout : Option Nat
  nextTimerId : Nat
  activeTimers : List (Nat × Nat)
  lastMouse : Option (Int × Int)
  toasts : List Notif
deriving DecidableEq

/-- Lines 75-85: the initial capability-detection effect.
`if (!videoRef.current) return; if (USE_NATIVE_HLS && canPlayType(...))
return; else if (Hls.isSupported()) setUseHlsCompat(true);` -/
def initialModeEffect (p : DeviceInfo) (s : PlayerState) : PlayerState :=
  if s.sink.attached = false then s
  else if (USE_NATIVE_HLS p && s.sink.canPlayHls) = true then s
  else if p.hlsSupported = true then { s with useHlsCompat := true }
  else s

/-- Lines 87-107: the source-loading effect.  Reads the current playback
rate, then either assigns `src` and calls `load()` (native branch, which
returns without restoring the rate), or lazily constructs and attaches the
hls.js engine, loads the source through it, and restores the playback
rate. -/
def sourceChangeEffect (s : PlayerState) : PlayerState :=
  if s.sink.attached = false then s
  else
    let currentPlaybackRate := s.sink.playbackRate
    if s.useHlsCompat = false then
      { s with sink := Sink.load { s.sink with src := s.currentSource } }
    else
      let s1 :=
        if s.hlsRef = none then
          { s with hlsRef := some { attachedToSink := true, lastLoaded := none },
                   engineConstructions := s.engineConstructions + 1 }
        else s
      let s2 := { s1 with hlsRef := s1.hlsRef.map (fun h : EngineHandle => { h with lastLoaded := some s.currentSource }) }
      { s2 with sink := { s2.sink with playbackRate := currentPlaybackRate } }

/-- Lines 263-273: the `onError` handler of the video element.
`if (!hlsRef.current && unsupportedErrorCodes.includes(code) && videoRef.current)
{ setLoadedMetadata(false); setUseHlsCompat(true); }` -/
def onError (s : PlayerState) (code : Nat) : PlayerState :=
  if s.hlsRef = none ∧ code ∈ unsupportedErrorCodes ∧ s.sink.attached = true then
    { s with loadedMetadata := false, useHlsCompat := true }
  else s

/-- Lines 178-186: the `onSeek` handler.  `const currentTime =
videoRef.current?.currentTime; if (!videoRef.current || !currentTime)
return;` — a zero current time is falsy in JS, so it returns just like an
unattached sink; otherwise `currentTime = Math.max(0, currentTime + diff)`.
`jsMax` is `Math.max` on two arguments. -/
def jsMax (a b : Int) : Int := if a ≤ b then b else a

theorem jsMax_eq_max (a b : Int) : jsMax a b = max a b := by
  show (if a ≤ b then b else a) = max a b
  rw [max_def]

def onSeek (s : PlayerState) (diff : Int) : PlayerState :=
  if s.sink.attached = false ∨ s.sink.currentTime = 0 then s
  else { s with sink := { s.sink with currentTime := jsMax 0 (s.sink.currentTime + diff) } }

/-- Lines 168-177: the `onPlayPause` command, forwarding play/pause to the
sink when attached. -/
def onPlayPause (s : PlayerState) (play : Bool) : PlayerState :=
  if s.sink.attached = false then s
  else if play = true then { s with sink := { s.sink with paused := false } }
  else { s with sink := { s.sink with paused := true } }

/-- Line 187-189: `onSetPlaybackRate`, a direct assignment when attached. -/
def onSetPlaybackRate (s : PlayerState) (rate : Int) : PlayerState :=
  if s.sink.attached = false then s
  else { s with sink := { s.sink with playbackRate := rate } }

/-- Lines 233-240: the video element's `onPlay` handler: set `isPlaying`;
on mobile show the controls and arm a 4000 ms hide timer, storing its
handle in `mobileCtrlTimeout`. -/
def onPlayEvent (p : DeviceInfo) (s : PlayerState) : PlayerState :=
  let s1 := { s with isPlaying := true, sink := { s.sink with paused := false } }
  if p.isMobile = true then
    { s1 with controls := true,
              activeTimers := s1.activeTimers ++ [(s.nextTimerId, 4000)],
              mobileCtrlTimeout := some s.nextTimerId,
              nextTimerId := s.nextTimerId + 1 }
  else s1

/-- Lines 242-248: the video element's `onPause` handler: clear `isPlaying`;
on mobile `clearTimeout(mobileCtrlTimeout)` (the stored handle is not reset
to undefined). -/
def onPauseEvent (p : DeviceInfo) (s : PlayerState) : PlayerState :=
  let s1 := { s with isPlaying := false, sink := { s.sink with paused := true } }
  if p.isMobile = true then
    match s.mobileCtrlTimeout with
    | some id => { s1 with activeTimers := s1.activeTimers.filter fun td => td.1 != id }
    | none => s1
  else s1

/-- The timeout callback of line 239 firing: `setControls(false)`.  A timer
fires only while still pending (cleared timers never fire). -/
def onTimerFire (s : PlayerState) (id : Nat) : PlayerState :=
  if (s.activeTimers.map Prod.fst).contains id = true then
    { s with controls := false, activeTimers := s.activeTimers.filter fun td => td.1 != id }
  else s

/-- The strict bounding-box test of lines 128-133:
`clientX > left && clientX < right && clientY > top && clientY < bottom`. -/
def insideRect (v : Sink) (x y : Int) : Bool :=
  decide (v.rectLeft < x) && decide (x < v.rectRight) &&
    decide (v.rectTop < y) && decide (y < v.rectBottom)

/-- Lines 118-145: the global `mousemove` listener, registered only on
desktop, is delivered a pointer position (recorded in `lastMouse`); when the
sink is attached it sets `controls` to true inside the bounding box and to
the current `controlsOpen` flag outside it. -/
def onMouseMove (p : DeviceInfo) (s : PlayerState) (x y : Int) : PlayerState :=
  let s0 := { s with lastMouse := some (x, y) }
  if p.isDesktop = false then s0
  else if s0.sink.attached = false then s0
  else if insideRect s0.sink x y = true then { s0 with controls := true }
  else { s0 with controls := s0.controlsOpen }

/-- Line 216: the wrapper's `onClick` — undefined on desktop, toggles
`controls` on mobile. -/
def onTap (p : DeviceInfo) (s : PlayerState) : PlayerState :=
  if p.isDesktop = true then s else { s with controls := !s.controls }

/-- Lines 190-204: the `onUploadFrame` handler.  A resolved response with
status 200 emits `toast.success("Successfully submitted frame to Frigate+")`;
any other resolution (non-200 status or undefined) emits
`toast.success("Failed to submit frame to Frigate+")` — the success toast
function in both branches.  A rejected promise propagates out of the
handler uncaught: no toast is emitted. -/
def onUploadFrame (s : PlayerState) (o : UploadOutcome) : PlayerState :=
  if s.sink.attached = false then s
  else
    match o with
    | .thrown => s
    | .completed st =>
      if st = some 200 then
        { s with toasts := s.toasts ++ [Notif.success "Successfully submitted frame to Frigate+"] }
      else
        { s with toasts := s.toasts ++ [Notif.success "Failed to submit frame to Frigate+"] }

/-- The external notifications and commands delivered to the widget. -/
inductive Event
  | mount
  | setSource (url : String)
  | mediaError (code : Nat)
  | seek (diff : Int)
  | playPause (play : Bool)
  | setRate (rate : Int)
  | play
  | pause
  | mouseMove (x y : Int)
  | setPin (b : Bool)
  | tap
  | timerFire (id : Nat)
  | uploadFrame (o : UploadOutcome)
deriving DecidableEq

/-- One event-handling step.  After a handler runs, React re-runs the
source-loading effect iff one of its changed dependencies (`useHlsCompat`,
`currentSource`) changed; on mount both effects run in order (a mode flip
by the first effect re-runs the second, so the net state is the second
effect on the final mode). -/
def step (p : DeviceInfo) (s : PlayerState) : Event → PlayerState
  | .mount => sourceChangeEffect (initialModeEffect p s)
  | .setSource url =>
      let s1 := { s with currentSource := url }
      if url = s.currentSource then s1 else sourceChangeEffect s1
  | .mediaError code =>
      let s1 := onError s code
      if s1.useHlsCompat = s.useHlsCompat then s1 else sourceChangeEffect s1
  | .seek d => onSeek s d
  | .playPause b => onPlayPause s b
  | .setRate r => onSetPlaybackRate s r
  | .play => onPlayEvent p s
  | .pause => onPauseEvent p s
  | .mouseMove x y => onMouseMove p s x y
  | .setPin b => { s with controlsOpen := b }
  | .tap => onTap p s
  | .timerFire id => onTimerFire s id
  | .uploadFrame o => onUploadFrame s o

/-- Running a sequence of events. -/
def runEvents (p : DeviceInfo) (s : PlayerState) (es : List Event) : PlayerState :=
  es.foldl (step p) s

/-- Line 153: `show={visible && (controls || controlsOpen)}`. -/
def showControls (s : PlayerState) : Bool :=
  s.visible && (s.controls || s.controlsOpen)

/-- Media play/pause events fire only on actual transitions of the sink's
playing state (DOM semantics); other events are unguarded. -/
def mediaGuard (s : PlayerState) : Event → Prop
  | .play => s.isPlaying = false
  | .pause => s.isPlaying = true
  | _ => True

/-- Invariant of the mobile hide-timer logic: either no timer is pending,
or the widget is a playing mobile widget with exactly one pending 4000 ms
timer whose handle is the one stored in `mobileCtrlTimeout`. -/
def TimerInv (p : DeviceInfo) (s : PlayerState) : Prop :=
  s.activeTimers = [] ∨
    (p.isMobile = true ∧ s.isPlaying = true ∧
      ∃ id, s.activeTimers = [(id, 4000)] ∧ s.mobileCtrlTimeout = some id)

/-! ### Concrete fixtures -/

/-- A desktop environment with hls.js supported. -/
def dev0 : DeviceInfo :=
  { isAndroid := false, isMobile := false, isDesktop := true, hlsSupported := true }

/-- An Android (mobile) environment with hls.js supported. -/
def devAndroid : DeviceInfo :=
  { isAndroid := true, isMobile := true, isDesktop := false, hlsSupported := true }

/-- An Android environment where hls.js is not supported. -/
def devAndroidNoHls : DeviceInfo :=
  { isAndroid := true, isMobile := true, isDesktop := false, hlsSupported := false }

/-- A non-Android mobile environment with hls.js supported. -/
def devMobile : DeviceInfo :=
  { isAndroid := false, isMobile := true, isDesktop := false, hlsSupported := true }

/-- An attached sink with native HLS support, current time 30, rate 1. -/
def sink0 : Sink :=
  { attached := true, src := "a", currentTime := 30, playbackRate := 1,
    defaultPlaybackRate := 1, paused := false, canPlayHls := true, loadCount := 0,
    rectLeft := 0, rectTop := 0, rectRight := 100, rectBottom := 100 }

/-- A freshly mounted widget state in NativeDirect mode. -/
def st0 : PlayerState :=
  { sink := sink0, currentSource := "a", useHlsCompat := false, hlsRef := none,
    engineConstructions := 0, loadedMetadata := true, visible := true,
    isPlaying := true, controls := false, controlsOpen := false,
    mobileCtrlTimeout := none, nextTimerId := 0, activeTimers := [],
    lastMouse := none, toasts := [] }

/-- Like `st0` but the sink's current time is 0. -/
def stZero : PlayerState := { st0 with sink := { sink0 with currentTime := 0 } }

/-- Like `st0` but the sink's playback rate is 2. -/
def stRate2 : PlayerState := { st0 with sink := { sink0 with playbackRate := 2 } }

/-- Like `st0` but in CompatibilityEngine mode. -/
def stCompat : PlayerState := { st0 with useHlsCompat := true }

/-- Like `st0` but paused. -/
def stPaused : PlayerState := { st0 with isPlaying := false }

/-! ### Helper lemmas about the handlers -/

theorem sourceChangeEffect_useHlsCompat (s : PlayerState) :
    (sourceChangeEffect s).useHlsCompat = s.useHlsCompat := by
  simp only [sourceChangeEffect]
  split_ifs <;> rfl

theorem initialModeEffect_cases (p : DeviceInfo) (s : PlayerState) :
    initialModeEffect p s = s ∨ initialModeEffect p s = { s with useHlsCompat := true } := by
  unfold initialModeEffect
  split_ifs <;> simp

theorem onError_cases (s : PlayerState) (code : Nat) :
    onError s code = s ∨
      onError s code = { s with loadedMetadata := false, useHlsCompat := true } := by
  unfold onError
  split_ifs <;> simp

/-! ### Claims C10, C7, C3, C4, C6 -/

/-- C10: when the sink's current time is exactly 0, `onSeek` is a no-op for
every delta, including positive deltas (the JS handler's `!currentTime`
truthiness test treats a zero current time exactly like an unattached
sink), so the state — in particular the current time — is unchanged. -/
theorem C10_zero_time_seek_noop (p : DeviceInfo) (s : PlayerState) (d : Int)
    (h : s.sink.currentTime = 0) : step p s (Event.seek d) = s := by
  simp [step, onSeek, h]

theorem C10_witness :
    stZero.sink.currentTime = 0 ∧ step dev0 stZero (Event.seek 7) = stZero :=
  ⟨rfl, C10_zero_time_seek_noop dev0 stZero 7 rfl⟩

/-- C7 counterexample: with an attached sink at current time 0 and delta 5,
`onSeek` leaves the time at 0 rather than setting it to
max(0, 0 + 5) = 5, so "for every attached sink and every delta, seekBy sets
the new current time to max(0, currentTime + delta)" is false. -/
theorem C7_counterexample :
    stZero.sink.attached = true ∧
    (step dev0 stZero (Event.seek 5)).sink.currentTime ≠
      max 0 (stZero.sink.currentTime + 5) := by
  constructor
  · rfl
  · rw [← jsMax_eq_max]
    decide

/-- C7 amended: for every attached sink whose current time is nonzero,
seekBy sets the new current time to max(0, currentTime + delta) — never
negative and with no upper clamp; at current time 0 the handler is a no-op
instead. -/
theorem C7_amended_seek_clamps_at_zero (p : DeviceInfo) (s : PlayerState) (d : Int)
    (hAtt : s.sink.attached = true) (hCt : s.sink.currentTime ≠ 0) :
    (step p s (Event.seek d)).sink.currentTime = max 0 (s.sink.currentTime + d) := by
  simp [step, onSeek, hAtt, hCt, jsMax_eq_max]

theorem C7_witness :
    st0.sink.attached = true ∧ st0.sink.currentTime = 30 ∧
    (step dev0 st0 (Event.seek (-100))).sink.currentTime = 0 :=
  ⟨rfl, rfl, (C7_amended_seek_clamps_at_zero dev0 st0 (-100) rfl (by decide)).trans
    (by rw [← jsMax_eq_max]; decide)⟩

/-- C3 counterexample: on an Android device where `Hls.isSupported()` is
false, the initial capability effect leaves the mode at NativeDirect even
though Android is in the unreliable-native-seek exception list (and even
though the sink reports native HLS support), so "the initial playback mode
is CompatibilityEngine, never NativeDirect" is false for Android. -/
theorem C3_counterexample :
    devAndroidNoHls.isAndroid = true ∧ st0.sink.attached = true ∧
    st0.sink.canPlayHls = true ∧
    (step devAndroidNoHls st0 Event.mount).useHlsCompat = false := by
  refine ⟨rfl, rfl, rfl, ?_⟩
  decide

/-- C3 amended: on Android the native-HLS path is disabled outright
(`USE_NATIVE_HLS = !isAndroid`), so whenever hls.js reports itself
supported, the initial mode selected at first attach is CompatibilityEngine
regardless of the sink's native capability probe; when hls.js is not
supported, the mode remains NativeDirect. -/
theorem C3_amended_android_initial_mode (p : DeviceInfo) (s : PlayerState)
    (hA : p.isAndroid = true) (hH : p.hlsSupported = true)
    (hAtt : s.sink.attached = true) :
    (step p s Event.mount).useHlsCompat = true := by
  show (sourceChangeEffect (initialModeEffect p s)).useHlsCompat = true
  rw [sourceChangeEffect_useHlsCompat]
  simp [initialModeEffect, USE_NATIVE_HLS, hA, hH, hAtt]

theorem C3_witness :
    devAndroid.isAndroid = true ∧ devAndroid.hlsSupported = true ∧
    st0.sink.attached = true ∧
    (step devAndroid st0 Event.mount).useHlsCompat = true :=
  ⟨rfl, rfl, rfl, C3_amended_android_initial_mode devAndroid st0 rfl rfl rfl⟩

/-- C4 counterexample: in NativeDirect mode with playback rate 2 (default
rate 1), a source change reloads the sink but the handler returns without
restoring the rate, so the rate observed after the reload (the default, 1)
differs from the rate before it (2): the claimed explicit restoration does
not exist in the native branch. -/
theorem C4_counterexample :
    stRate2.useHlsCompat = false ∧ stRate2.sink.attached = true ∧
    stRate2.sink.playbackRate = 2 ∧
    (step dev0 stRate2 (Event.setSource "b")).sink.loadCount =
      stRate2.sink.loadCount + 1 ∧
    (step dev0 stRate2 (Event.setSource "b")).sink.playbackRate ≠
      stRate2.sink.playbackRate := by
  refine ⟨rfl, rfl, rfl, ?_, ?_⟩ <;> decide

/-- C4 amended: for every source change while in NativeDirect mode, the
controller assigns the new source URL to the sink and triggers a reload,
but performs no playback-rate restoration: the rate observed after the
reload is the sink's default playback rate (the rate is restored only in
the CompatibilityEngine branch). -/
theorem C4_amended_native_source_change (p : DeviceInfo) (s : PlayerState) (url : String)
    (hAtt : s.sink.attached = true) (hMode : s.useHlsCompat = false)
    (hUrl : url ≠ s.currentSource) :
    (step p s (Event.setSource url)).sink.src = url ∧
    (step p s (Event.setSource url)).sink.loadCount = s.sink.loadCount + 1 ∧
    (step p s (Event.setSource url)).sink.playbackRate = s.sink.defaultPlaybackRate := by
  simp [step, hUrl, sourceChangeEffect, hAtt, hMode, Sink.load]

theorem C4_witness :
    stRate2.sink.attached = true ∧ stRate2.useHlsCompat = false ∧
    "b" ≠ stRate2.currentSource ∧
    (step dev0 stRate2 (Event.setSource "b")).sink.playbackRate =
      stRate2.sink.defaultPlaybackRate :=
  ⟨rfl, rfl, by decide,
    (C4_amended_native_source_change dev0 stRate2 "b" rfl rfl (by decide)).2.2⟩

/-- C6: evaluating the frame-submission handler at the failing input.  A
completed submission with HTTP status 500 emits `toast.success` (the
success toast function) carrying the text "Failed to submit frame to
Frigate+" instead of a failure notification — the code path for non-200
statuses calls `toast.success` too, contradicting its own message — and a
thrown transport failure emits no notification at all because the `await`
rejection propagates uncaught.  The sink's playing/paused state is
unchanged in both cases. -/
theorem C6_failing_input_eval :
    ((step dev0 st0 (Event.uploadFrame (UploadOutcome.completed (some 500)))).toasts =
       st0.toasts ++ [Notif.success "Failed to submit frame to Frigate+"]) ∧
    ((step dev0 st0 (Event.uploadFrame (UploadOutcome.completed (some 500)))).sink.paused =
       st0.sink.paused) ∧
    ((step dev0 st0 (Event.uploadFrame UploadOutcome.thrown)).toasts = st0.toasts) ∧
    ((step dev0 st0 (Event.uploadFrame UploadOutcome.thrown)).sink.paused =
       st0.sink.paused) :=
  ⟨rfl, rfl, rfl, rfl⟩

/-! ### Mode-monotonicity helpers -/

theorem step_setSource_mode (p : DeviceInfo) (s : PlayerState) (url : String) :
    (step p s (Event.setSource url)).useHlsCompat = s.useHlsCompat := by
  simp only [step]
  split
  · rfl
  · exact sourceChangeEffect_useHlsCompat _

theorem step_mode_eq_of_other (p : DeviceInfo) (s : PlayerState) (e : Event)
    (hm : e ≠ Event.mount) (he : ∀ c, e ≠ Event.mediaError c) :
    (step p s e).useHlsCompat = s.useHlsCompat := by
  cases e with
  | mount => exact absurd rfl hm
  | mediaError c => exact absurd rfl (he c)
  | setSource url => exact step_setSource_mode p s url
  | seek d =>
      show (onSeek s d).useHlsCompat = _
      unfold onSeek; split_ifs <;> rfl
  | playPause b =>
      show (onPlayPause s b).useHlsCompat = _
      unfold onPlayPause; split_ifs <;> rfl
  | setRate r =>
      show (onSetPlaybackRate s r).useHlsCompat = _
      unfold onSetPlaybackRate; split_ifs <;> rfl
  | play =>
      show (onPlayEvent p s).useHlsCompat = _
      simp only [onPlayEvent]; split_ifs <;> rfl
  | pause =>
      show (onPauseEvent p s).useHlsCompat = _
      simp only [onPauseEvent]
      split_ifs
      · cases s.mobileCtrlTimeout <;> rfl
      · rfl
  | mouseMove x y =>
      show (onMouseMove p s x y).useHlsCompat = _
      simp only [onMouseMove]; split_ifs <;> rfl
  | setPin b => rfl
  | tap =>
      show (onTap p s).useHlsCompat = _
      unfold onTap; split_ifs <;> rfl
  | timerFire id =>
      show (onTimerFire s id).useHlsCompat = _
      unfold onTimerFire; split_ifs <;> rfl
  | uploadFrame o =>
      show (onUploadFrame s o).useHlsCompat = _
      unfold onUploadFrame
      split_ifs
      · rfl
      · cases o with
        | thrown => rfl
        | completed st => simp only []; split_ifs <;> rfl

theorem step_mode_mono (p : DeviceInfo) (s : PlayerState) (e : Event)
    (h : s.useHlsCompat = true) : (step p s e).useHlsCompat = true := by
  cases e with
  | mount =>
      show (sourceChangeEffect (initialModeEffect p s)).useHlsCompat = true
      rw [sourceChangeEffect_useHlsCompat]
      rcases initialModeEffect_cases p s with hc | hc
      · rw [hc]; exact h
      · rw [hc]
  | mediaError c =>
      simp only [step]
      split
      · next h1 => rw [h1]; exact h
      · rw [sourceChangeEffect_useHlsCompat]
        rcases onError_cases s c with hc | hc
        · rw [hc]; exact h
        · rw [hc]
  | setSource url => rw [step_setSource_mode]; exact h
  | seek d => rw [step_mode_eq_of_other p s _ (by simp) (by simp)]; exact h
  | playPause b => rw [step_mode_eq_of_other p s _ (by simp) (by simp)]; exact h
  | setRate r => rw [step_mode_eq_of_other p s _ (by simp) (by simp)]; exact h
  | play => rw [step_mode_eq_of_other p s _ (by simp) (by simp)]; exact h
  | pause => rw [step_mode_eq_of_other p s _ (by simp) (by simp)]; exact h
  | mouseMove x y => rw [step_mode_eq_of_other p s _ (by simp) (by simp)]; exact h
  | setPin b => rw [step_mode_eq_of_other p s _ (by simp) (by simp)]; exact h
  | tap => rw [step_mode_eq_of_other p s _ (by simp) (by simp)]; exact h
  | timerFire id => rw [step_mode_eq_of_other p s _ (by simp) (by simp)]; exact h
  | uploadFrame o => rw [step_mode_eq_of_other p s _ (by simp) (by simp)]; exact h

/-! ### Claims C1 and C2 -/

/-- C1: when the sink reports an error whose code is in the fixed
unsupported set (4 = format-not-supported, 3 = decode-error) while no
engine instance exists and the widget is in NativeDirect mode, the handler
transitions to CompatibilityEngine, clears the metadata-loaded flag, and
the re-run source effect constructs and attaches the engine exactly once;
and for every later error, identical or not, once an engine instance
exists the error handler performs no state change at all. -/
theorem C1_fallback_exactly_once (p : DeviceInfo) (s : PlayerState) (code : Nat)
    (hAtt : s.sink.attached = true) (hMode : s.useHlsCompat = false)
    (hRef : s.hlsRef = none) (hCode : code ∈ unsupportedErrorCodes) :
    ((step p s (Event.mediaError code)).useHlsCompat = true ∧
     (step p s (Event.mediaError code)).loadedMetadata = false ∧
     (step p s (Event.mediaError code)).hlsRef =
       some { attachedToSink := true, lastLoaded := some s.currentSource } ∧
     (step p s (Event.mediaError code)).engineConstructions =
       s.engineConstructions + 1) ∧
    (∀ (t : PlayerState) (c : Nat), t.hlsRef.isSome = true →
      step p t (Event.mediaError c) = t) := by
  constructor
  · have hE : onError s code = { s with loadedMetadata := false, useHlsCompat := true } := by
      simp [onError, hRef, hCode, hAtt]
    simp only [step, hE]
    rw [if_neg (by simp [hMode])]
    simp [sourceChangeEffect, hAtt, hRef]
  · intro t c ht
    have hne : ¬ t.hlsRef = none := by
      cases h : t.hlsRef with
      | none => rw [h] at ht; simp at ht
      | some _ => simp
    simp [step, onError, hne]

theorem C1_witness :
    st0.sink.attached = true ∧ st0.useHlsCompat = false ∧ st0.hlsRef = none ∧
    4 ∈ unsupportedErrorCodes ∧
    (step dev0 st0 (Event.mediaError 4)).useHlsCompat = true :=
  ⟨rfl, rfl, rfl, by decide,
    (C1_fallback_exactly_once dev0 st0 4 rfl rfl rfl (by decide)).1.1⟩

/-- C2: the playback mode is one-way — once CompatibilityEngine is
selected, no sequence of events brings the mode back to NativeDirect; a
source change never changes the mode in either direction; and any event
that does change the mode is the mount-time capability detection or a
media error (the decode-failure fallback). -/
theorem C2_mode_one_way (p : DeviceInfo) :
    (∀ (s : PlayerState) (es : List Event),
        s.useHlsCompat = true → (runEvents p s es).useHlsCompat = true) ∧
    (∀ (s : PlayerState) (url : String),
        (step p s (Event.setSource url)).useHlsCompat = s.useHlsCompat) ∧
    (∀ (s : PlayerState) (e : Event),
        (step p s e).useHlsCompat ≠ s.useHlsCompat →
          e = Event.mount ∨ ∃ c, e = Event.mediaError c) := by
  refine ⟨?_, ?_, ?_⟩
  · intro s es h
    induction es generalizing s with
    | nil => exact h
    | cons e es ih => exact ih _ (step_mode_mono p s e h)
  · exact step_setSource_mode p
  · intro s e hne
    by_contra hcon
    push_neg at hcon
    exact hne (step_mode_eq_of_other p s e hcon.1 fun c => hcon.2 c)

theorem C2_witness :
    stCompat.useHlsCompat = true ∧
    (runEvents dev0 stCompat
      [Event.setSource "b", Event.mediaError 3, Event.seek 5]).useHlsCompat = true :=
  ⟨rfl, (C2_mode_one_way dev0).1 stCompat
    [Event.setSource "b", Event.mediaError 3, Event.seek 5] rfl⟩

/-! ### Engine at-most-once helpers and claim C5 -/

theorem sourceChangeEffect_no_construct (s : PlayerState) (h : s.hlsRef.isSome = true) :
    (sourceChangeEffect s).engineConstructions = s.engineConstructions ∧
    (sourceChangeEffect s).hlsRef.isSome = true := by
  obtain ⟨hh, hhe⟩ := Option.isSome_iff_exists.mp h
  unfold sourceChangeEffect
  split_ifs with h1 h2 h3
  · exact ⟨rfl, h⟩
  · exact ⟨rfl, h⟩
  · exact absurd h3 (by simp [hhe])
  · constructor
    · simp
    · simp [hhe]

theorem step_engine_fields (p : DeviceInfo) (t : PlayerState) (e : Event)
    (h : t.hlsRef.isSome = true) :
    (step p t e).engineConstructions = t.engineConstructions ∧
    (step p t e).hlsRef.isSome = true := by
  cases e with
  | mount =>
      show (sourceChangeEffect (initialModeEffect p t)).engineConstructions =
          t.engineConstructions ∧
        (sourceChangeEffect (initialModeEffect p t)).hlsRef.isSome = true
      rcases initialModeEffect_cases p t with hc | hc <;> rw [hc]
      · exact sourceChangeEffect_no_construct t h
      · exact sourceChangeEffect_no_construct _ h
  | setSource url =>
      simp only [step]
      split
      · exact ⟨rfl, h⟩
      · exact sourceChangeEffect_no_construct _ h
  | mediaError c =>
      simp only [step]
      split
      · rcases onError_cases t c with hc | hc <;> rw [hc]
        · exact ⟨rfl, h⟩
        · exact ⟨rfl, h⟩
      · rcases onError_cases t c with hc | hc <;> rw [hc]
        · exact sourceChangeEffect_no_construct t h
        · exact sourceChangeEffect_no_construct _ h
  | seek d =>
      refine ⟨?_, ?_⟩
      · show (onSeek t d).engineConstructions = t.engineConstructions
        unfold onSeek; split_ifs <;> rfl
      · show (onSeek t d).hlsRef.isSome = true
        unfold onSeek; split_ifs <;> exact h
  | playPause b =>
      refine ⟨?_, ?_⟩
      · show (onPlayPause t b).engineConstructions = t.engineConstructions
        unfold onPlayPause; split_ifs <;> rfl
      · show (onPlayPause t b).hlsRef.isSome = true
        unfold onPlayPause; split_ifs <;> exact h
  | setRate r =>
      refine ⟨?_, ?_⟩
      · show (onSetPlaybackRate t r).engineConstructions = t.engineConstructions
        unfold onSetPlaybackRate; split_ifs <;> rfl
      · show (onSetPlaybackRate t r).hlsRef.isSome = true
        unfold onSetPlaybackRate; split_ifs <;> exact h
  | play =>
      refine ⟨?_, ?_⟩
      · show (onPlayEvent p t).engineConstructions = t.engineConstructions
        simp only [onPlayEvent]; split_ifs <;> rfl
      · show (onPlayEvent p t).hlsRef.isSome = true
        simp only [onPlayEvent]; split_ifs <;> exact h
  | pause =>
      refine ⟨?_, ?_⟩
      · show (onPauseEvent p t).engineConstructions = t.engineConstructions
        simp only [onPauseEvent]
        split_ifs
        · cases t.mobileCtrlTimeout <;> rfl
        · rfl
      · show (onPauseEvent p t).hlsRef.isSome = true
        simp only [onPauseEvent]
        split_ifs
        · cases t.mobileCtrlTimeout <;> exact h
        · exact h
  | mouseMove x y =>
      refine ⟨?_, ?_⟩
      · show (onMouseMove p t x y).engineConstructions = t.engineConstructions
        simp only [onMouseMove]; split_ifs <;> rfl
      · show (onMouseMove p t x y).hlsRef.isSome = true
        simp only [onMouseMove]; split_ifs <;> exact h
  | setPin b => exact ⟨rfl, h⟩
  | tap =>
      refine ⟨?_, ?_⟩
      · show (onTap p t).engineConstructions = t.engineConstructions
        unfold onTap; split_ifs <;> rfl
      · show (onTap p t).hlsRef.isSome = true
        unfold onTap; split_ifs <;> exact h
  | timerFire id =>
      refine ⟨?_, ?_⟩
      · show (onTimerFire t id).engineConstructions = t.engineConstructions
        unfold onTimerFire; split_ifs <;> rfl
      · show (onTimerFire t id).hlsRef.isSome = true
        unfold onTimerFire; split_ifs <;> exact h
  | uploadFrame o =>
      refine ⟨?_, ?_⟩
      · show (onUploadFrame t o).engineConstructions = t.engineConstructions
        unfold onUploadFrame
        split_ifs
        · rfl
        · cases o with
          | thrown => rfl
          | completed st => simp only []; split_ifs <;> rfl
      · show (onUploadFrame t o).hlsRef.isSome = true
        unfold onUploadFrame
        split_ifs
        · exact h
        · cases o with
          | thrown => exact h
          | completed st => simp only []; split_ifs <;> exact h

/-- C5: for every source change while in CompatibilityEngine mode, the
handler loads the new source through the engine and then restores the
playback rate, so the sink's rate after the load equals its value before
the change; a fresh engine is constructed and attached only when none
exists yet, and once an engine instance exists no event ever constructs
another (at most one construction for the widget's lifetime). -/
theorem C5_compat_source_change (p : DeviceInfo) (s : PlayerState) (url : String)
    (hAtt : s.sink.attached = true) (hMode : s.useHlsCompat = true)
    (hUrl : url ≠ s.currentSource) :
    ((step p s (Event.setSource url)).sink.playbackRate = s.sink.playbackRate ∧
     (∃ hEng : EngineHandle, (step p s (Event.setSource url)).hlsRef = some hEng ∧
        hEng.lastLoaded = some url) ∧
     (s.hlsRef = none →
        (step p s (Event.setSource url)).hlsRef =
          some { attachedToSink := true, lastLoaded := some url } ∧
        (step p s (Event.setSource url)).engineConstructions =
          s.engineConstructions + 1) ∧
     (s.hlsRef.isSome = true →
        (step p s (Event.setSource url)).engineConstructions =
          s.engineConstructions)) ∧
    (∀ (t : PlayerState) (e : Event), t.hlsRef.isSome = true →
        (step p t e).engineConstructions = t.engineConstructions ∧
        (step p t e).hlsRef.isSome = true) := by
  constructor
  · have hstep : step p s (Event.setSource url) =
        sourceChangeEffect { s with currentSource := url } := by
      simp only [step]
      rw [if_neg hUrl]
    rw [hstep]
    cases hR : s.hlsRef with
    | none => simp [sourceChangeEffect, hAtt, hMode, hR]
    | some hEng => simp [sourceChangeEffect, hAtt, hMode, hR]
  · exact fun t e h => step_engine_fields p t e h

theorem C5_witness :
    stCompat.sink.attached = true ∧ stCompat.useHlsCompat = true ∧
    "b" ≠ stCompat.currentSource ∧
    (step dev0 stCompat (Event.setSource "b")).sink.playbackRate =
      stCompat.sink.playbackRate :=
  ⟨rfl, rfl, by decide,
    (C5_compat_source_change dev0 stCompat "b" rfl rfl (by decide)).1.1⟩

/-! ### Claim C8 -/

/-- C8 counterexample: on desktop, pin the controls open, move the pointer
outside the bounding box (rect (0,0)-(100,100), pointer at (200,200)), and
then clear the pin.  The controls remain shown even though the pointer's
last known position is outside the box and the pin is clear — the
`controls` state is only re-evaluated on the next mousemove, so "clearing
the pin while the pointer is outside immediately hides the controls" is
false. -/
theorem C8_counterexample :
    dev0.isDesktop = true ∧
    showControls (runEvents dev0 st0
      [Event.setPin true, Event.mouseMove 200 200, Event.setPin false]) = true ∧
    (runEvents dev0 st0
      [Event.setPin true, Event.mouseMove 200 200, Event.setPin false]).controlsOpen = false ∧
    (runEvents dev0 st0
      [Event.setPin true, Event.mouseMove 200 200, Event.setPin false]).lastMouse =
      some (200, 200) ∧
    insideRect (runEvents dev0 st0
      [Event.setPin true, Event.mouseMove 200 200, Event.setPin false]).sink 200 200 =
      false := by
  decide

/-- C8 amended: on desktop the `controls` state is re-evaluated only when a
pointer-move event is delivered: immediately after any pointer move,
controls are shown iff the widget is visible and (the pointer is inside the
video bounding box or the pinned-open flag is set); the pinned-open flag
always forces the controls shown while the widget is visible; but between
pointer moves the controls keep the value computed at the last move, so
clearing the pin while the pointer is outside hides the controls only at
the next pointer move, not immediately. -/
theorem C8_amended_desktop_visibility (p : DeviceInfo) (s : PlayerState) (x y : Int)
    (hD : p.isDesktop = true) (hAtt : s.sink.attached = true) :
    (showControls (step p s (Event.mouseMove x y)) =
      (s.visible && (insideRect s.sink x y || s.controlsOpen))) ∧
    (∀ t : PlayerState, t.controlsOpen = true → showControls t = t.visible) := by
  constructor
  · show showControls (onMouseMove p s x y) = _
    unfold onMouseMove
    rw [if_neg (by simp [hD]), if_neg (by simp [hAtt])]
    cases hIn : insideRect s.sink x y with
    | true =>
        rw [if_pos rfl]
        simp [showControls]
    | false =>
        rw [if_neg (by simp)]
        simp [showControls]
  · intro t ht
    simp [showControls, ht]

theorem C8_witness :
    dev0.isDesktop = true ∧ st0.sink.attached = true ∧
    showControls (step dev0 st0 (Event.mouseMove 50 50)) =
      (st0.visible && (insideRect st0.sink 50 50 || st0.controlsOpen)) :=
  ⟨rfl, rfl, (C8_amended_desktop_visibility dev0 st0 50 50 rfl rfl).1⟩

/-! ### Timer-invariant helpers and claim C9 -/

theorem timerFields_eq_inv (p : DeviceInfo) {s t : PlayerState}
    (h1 : t.activeTimers = s.activeTimers)
    (h2 : t.mobileCtrlTimeout = s.mobileCtrlTimeout)
    (h3 : t.isPlaying = s.isPlaying) (h : TimerInv p s) : TimerInv p t := by
  unfold TimerInv at *
  rw [h1, h2, h3]
  exact h

theorem sourceChangeEffect_timer_fields (s : PlayerState) :
    (sourceChangeEffect s).activeTimers = s.activeTimers ∧
    (sourceChangeEffect s).mobileCtrlTimeout = s.mobileCtrlTimeout ∧
    (sourceChangeEffect s).isPlaying = s.isPlaying := by
  unfold sourceChangeEffect
  split_ifs <;> simp

theorem timerInv_step (p : DeviceInfo) (s : PlayerState) (e : Event)
    (hInv : TimerInv p s) (hG : mediaGuard s e) : TimerInv p (step p s e) := by
  cases e with
  | mount =>
      show TimerInv p (sourceChangeEffect (initialModeEffect p s))
      rcases initialModeEffect_cases p s with hc | hc <;> rw [hc]
      · exact timerFields_eq_inv p (sourceChangeEffect_timer_fields s).1
          (sourceChangeEffect_timer_fields s).2.1 (sourceChangeEffect_timer_fields s).2.2 hInv
      · exact timerFields_eq_inv p (sourceChangeEffect_timer_fields _).1
          (sourceChangeEffect_timer_fields _).2.1 (sourceChangeEffect_timer_fields _).2.2 hInv
  | setSource url =>
      simp only [step]
      split
      · exact timerFields_eq_inv p rfl rfl rfl hInv
      · exact timerFields_eq_inv p (sourceChangeEffect_timer_fields _).1
          (sourceChangeEffect_timer_fields _).2.1 (sourceChangeEffect_timer_fields _).2.2 hInv
  | mediaError c =>
      simp only [step]
      split
      · rcases onError_cases s c with hc | hc <;> rw [hc]
        · exact hInv
        · exact timerFields_eq_inv p rfl rfl rfl hInv
      · rcases onError_cases s c with hc | hc <;> rw [hc]
        · exact timerFields_eq_inv p (sourceChangeEffect_timer_fields _).1
            (sourceChangeEffect_timer_fields _).2.1 (sourceChangeEffect_timer_fields _).2.2 hInv
        · exact timerFields_eq_inv p (sourceChangeEffect_timer_fields _).1
            (sourceChangeEffect_timer_fields _).2.1 (sourceChangeEffect_timer_fields _).2.2 hInv
  | seek d =>
      show TimerInv p (onSeek s d)
      unfold onSeek
      split_ifs
      · exact hInv
      · exact timerFields_eq_inv p rfl rfl rfl hInv
  | playPause b =>
      show TimerInv p (onPlayPause s b)
      unfold onPlayPause
      split_ifs
      · exact hInv
      · exact timerFields_eq_inv p rfl rfl rfl hInv
      · exact timerFields_eq_inv p rfl rfl rfl hInv
  | setRate r =>
      show TimerInv p (onSetPlaybackRate s r)
      unfold onSetPlaybackRate
      split_ifs
      · exact hInv
      · exact timerFields_eq_inv p rfl rfl rfl hInv
  | play =>
      have hA : s.activeTimers = [] := by
        rcases hInv with hA | ⟨_, hP, _⟩
        · exact hA
        · exact absurd hP (by rw [hG]; simp)
      show TimerInv p (onPlayEvent p s)
      simp only [onPlayEvent]
      split_ifs with hM
      · right
        exact ⟨hM, rfl, s.nextTimerId, by simp [hA], rfl⟩
      · left
        exact hA
  | pause =>
      show TimerInv p (onPauseEvent p s)
      simp only [onPauseEvent]
      rcases hInv with hA | ⟨hM, hP, id0, hT, hC⟩
      · split_ifs with hM
        · cases hc : s.mobileCtrlTimeout with
          | none => left; exact hA
          | some id => left; simp [hA]
        · left; exact hA
      · split_ifs
        rw [hC]
        left
        simp [hT]
  | mouseMove x y =>
      show TimerInv p (onMouseMove p s x y)
      simp only [onMouseMove]
      split_ifs <;> exact timerFields_eq_inv p rfl rfl rfl hInv
  | setPin b => exact timerFields_eq_inv p rfl rfl rfl hInv
  | tap =>
      show TimerInv p (onTap p s)
      unfold onTap
      split_ifs
      · exact hInv
      · exact timerFields_eq_inv p rfl rfl rfl hInv
  | timerFire id =>
      show TimerInv p (onTimerFire s id)
      unfold onTimerFire
      split_ifs with hC
      · rcases hInv with hA | ⟨hM, hP, id0, hT, hCtrl⟩
        · rw [hA] at hC
          simp at hC
        · rw [hT] at hC
          simp at hC
          subst hC
          left
          rw [hT]
          simp
      · exact hInv
  | uploadFrame o =>
      show TimerInv p (onUploadFrame s o)
      unfold onUploadFrame
      split_ifs
      · exact hInv
      · cases o with
        | thrown => exact hInv
        | completed st =>
            simp only []
            split_ifs <;> exact timerFields_eq_inv p rfl rfl rfl hInv

/-- C9: under the mobile-timer invariant (preserved by every guarded
event): at most one hide timer is pending at any time; every transition
into the playing state on mobile arms exactly one fresh 4000 ms hide timer
(re-triggering rather than stacking) and shows the controls; a pause
transition cancels any pending timer; and a pending timer that fires hides
the controls and leaves no pending timer, so the hide happens exactly
once. -/
theorem C9_mobile_hide_timer (p : DeviceInfo) (s : PlayerState) (hInv : TimerInv p s) :
    s.activeTimers.length ≤ 1 ∧
    (∀ e : Event, mediaGuard s e → TimerInv p (step p s e)) ∧
    (p.isMobile = true → s.isPlaying = false →
      (step p s Event.play).activeTimers = [(s.nextTimerId, 4000)] ∧
      (step p s Event.play).mobileCtrlTimeout = some s.nextTimerId ∧
      (step p s Event.play).controls = true) ∧
    ((step p s Event.pause).activeTimers = []) ∧
    (∀ id : Nat, (id, 4000) ∈ s.activeTimers →
      (step p s (Event.timerFire id)).controls = false ∧
      (step p s (Event.timerFire id)).activeTimers = []) := by
  refine ⟨?_, fun e hG => timerInv_step p s e hInv hG, ?_, ?_, ?_⟩
  · rcases hInv with hA | ⟨_, _, id0, hT, _⟩
    · simp [hA]
    · simp [hT]
  · intro hM hP
    have hA : s.activeTimers = [] := by
      rcases hInv with hA | ⟨_, hP2, _⟩
      · exact hA
      · exact absurd hP2 (by rw [hP]; simp)
    show (onPlayEvent p s).activeTimers = _ ∧ (onPlayEvent p s).mobileCtrlTimeout = _ ∧
      (onPlayEvent p s).controls = true
    simp only [onPlayEvent]
    rw [if_pos hM]
    exact ⟨by simp [hA], rfl, rfl⟩
  · show (onPauseEvent p s).activeTimers = []
    simp only [onPauseEvent]
    rcases hInv with hA | ⟨hM, hP, id0, hT, hC⟩
    · split_ifs with hM
      · cases hc : s.mobileCtrlTimeout with
        | none => exact hA
        | some id => simp [hA]
      · exact hA
    · split_ifs
      rw [hC]
      simp [hT]
  · intro id hmem
    rcases hInv with hA | ⟨hM, hP, id0, hT, hCtrl⟩
    · rw [hA] at hmem
      simp at hmem
    · rw [hT] at hmem
      simp at hmem
      subst hmem
      show (onTimerFire s id).controls = false ∧ (onTimerFire s id).activeTimers = []
      unfold onTimerFire
      rw [hT]
      rw [if_pos (by simp)]
      exact ⟨rfl, by simp⟩

theorem C9_witness :
    TimerInv devMobile stPaused ∧ devMobile.isMobile = true ∧
    stPaused.isPlaying = false ∧
    (step devMobile stPaused Event.play).activeTimers = [(stPaused.nextTimerId, 4000)] :=
  ⟨Or.inl rfl, rfl, rfl,
    ((C9_mobile_hide_timer devMobile stPaused (Or.inl rfl)).2.2.1 rfl rfl).1⟩
